import Mathlib

/-!
Shallow embedding of the random-track selection core of `hey_siwi`
(`src/hey_siwi/spotify.py`, class `PlayRandomSongAction` and its helpers
`_get_genre`, `_get_random`, `execute`), together with theorems checking the
natural-language specification against it.

Modelling choices:
* Python's global `random` module is modelled as a stream of natural numbers
  (`List Nat`); `draw r n` models one uniform draw in `[0, n-1]`
  (`random.randint(0, n-1)` / the index drawn by `random.choice`): it pops the
  head of the stream and reduces it modulo `n`.
* The genre catalog resource is `Option (List String)`: `none` models a
  catalog file that cannot be opened (the `IOError` from `open` propagates);
  `some lines` gives the file's lines exactly as Python's file iteration
  yields them (each line keeps its trailing newline).
* The search capability is a function from the query string to either an
  error (transport failure raised by the HTTP layer), a falsy response
  (`if not data: raise SpotifyActionError`), or a first page together with
  the list of successive `fetchNext` results; a page has a continuation
  exactly when entries remain in that list, and each continuation fetch can
  itself fail.
* Exceptions are modelled with `Except Err`; the selector catches nothing,
  so every error value propagates to the caller unchanged.
* Call counts (genre draws, search queries, page fetches) are recorded in the
  result so that the spec's bounded-calls properties are statable.
-/

namespace HeySiwi

/-- Errors that can escape the selection code: `catalogUnavailable` models the
`IOError` when the genres file cannot be opened, `emptyCatalog` the
`IndexError` from `random.choice` on an empty line list, `transport` a
network/HTTP failure raised by the search capability or a page fetch (the
payload tags the concrete failure so that "propagates unmodified" is
checkable), `emptySearchData` the `SpotifyActionError` raised on a falsy
search response, and `noSongFound` the `SpotifyActionError("Unable to find a
song!")` raised after the retry loop exhausts. -/
inductive Err where
  | catalogUnavailable : Err
  | emptyCatalog : Err
  | transport : Nat → Err
  | emptySearchData : Err
  | noSongFound : Err
deriving DecidableEq, Repr

instance {ε α : Type} [DecidableEq ε] [DecidableEq α] : DecidableEq (Except ε α) := fun a b =>
  match a, b with
  | .error e, .error f =>
    if h : e = f then .isTrue (by rw [h]) else .isFalse (by intro hh; injection hh; exact h (by assumption))
  | .error _, .ok _ => .isFalse (by intro hh; exact Except.noConfusion hh)
  | .ok _, .error _ => .isFalse (by intro hh; exact Except.noConfusion hh)
  | .ok x, .ok y =>
    if h : x = y then .isTrue (by rw [h]) else .isFalse (by intro hh; injection hh; exact h (by assumption))

/-- Counters for the observable external calls made by the selector. -/
structure Counts where
  genreDraws : Nat
  queries : Nat
  fetches : Nat
deriving DecidableEq, Repr

instance : Add Counts where
  add a b := ⟨a.genreDraws + b.genreDraws, a.queries + b.queries, a.fetches + b.fetches⟩

/-- One uniform random draw in `[0, n-1]` from the stream `r` (models
`random.randint(0, num_items - 1)` and the index picked by `random.choice`):
pops the head of the stream and reduces it modulo `n`. -/
def draw (r : List Nat) (n : Nat) : Nat × List Nat :=
  match r with
  | [] => (0, [])
  | x :: xs => (x % n, xs)

/-- Python's `s.strip("\n")`: remove leading and trailing newline characters
(and nothing else). -/
def stripNewlines (s : String) : String :=
  ⟨((s.data.dropWhile (fun c => c == '\n')).reverse.dropWhile
      (fun c => c == '\n')).reverse⟩

/-- Python's `s.strip()`: remove leading and trailing whitespace. Used only to
state what the spec describes, never by the code model. -/
def stripWs (s : String) : String :=
  ⟨((s.data.dropWhile Char.isWhitespace).reverse.dropWhile
      Char.isWhitespace).reverse⟩

/-- Catalog processing as the spec describes it ("blank lines and surrounding
whitespace stripped"): strip each line's surrounding whitespace and drop the
lines that are then empty. Stated from the spec's words for comparison with
the code model; the code does not do this. -/
def specUsableLines (lines : List String) : List String :=
  (lines.map stripWs).filter (fun s => s ≠ "")

/-- Model of `PlayRandomSongAction._get_genre` (spotify.py lines 208-213):
`genre_list = list(open(genre_file))`, `random.choice(genre_list).strip("\n")`.
`cat = none` models an unopenable catalog resource (the `IOError`
propagates); an empty line list makes `random.choice` raise `IndexError`
before consuming any randomness; otherwise one uniform draw picks a raw line
and only newline characters are stripped from it. -/
def getGenre (cat : Option (List String)) (r : List Nat) :
    Except Err String × List Nat :=
  match cat with
  | none => (.error .catalogUnavailable, r)
  | some lines =>
    if lines.length = 0 then (.error .emptyCatalog, r)
    else
      let p := draw r lines.length
      (.ok (stripNewlines (lines.getD p.1 "")), p.2)

/-- The search capability as seen by one attempt: a query string is answered
by a transport error, a falsy response (`.ok none`), or a first page plus the
ordered list of `fetchNext` results. A page has a continuation reference
exactly when entries remain in that list; each continuation fetch may itself
fail with a transport error. -/
def SearchCap : Type :=
  String → Except Err (Option (List String × List (Except Err (List String))))

/-- Outcome of one sampling traversal: the attempt's result (`.ok none` is
the defined "no candidate" outcome), the remaining random stream, and the
number of `fetchNext` calls made. -/
structure SampleOut where
  res : Except Err (Option String)
  rng : List Nat
  fetches : Nat
deriving DecidableEq, Repr

/-- Model of the `while True` pagination loop of
`PlayRandomSongAction._get_random` (spotify.py lines 222-239): `items` is the
current page's candidate list, `rest` the continuation fetch results still to
come, `samples` the reservoir accumulated so far. Each iteration returns the
defined empty outcome if the current page is empty, otherwise picks one index
uniformly, appends that candidate's id to the reservoir, and either stops and
picks one reservoir entry uniformly (no continuation), propagates a failed
fetch, or recurses into the fetched page. The recursion is dispatched on the
continuation list, so the loop body's leading empty-page check appears once
per branch; each branch is one iteration of the Python loop. -/
def sampleLoop : List String → List (Except Err (List String)) →
    List String → List Nat → SampleOut
  | items, [], samples, r =>
    if items.length = 0 then ⟨.ok none, r, 0⟩
    else
      let p := draw r items.length
      let samples' := samples ++ [items.getD p.1 ""]
      let q := draw p.2 samples'.length
      ⟨.ok (some (samples'.getD q.1 "")), q.2, 0⟩
  | items, .error e :: _, _samples, r =>
    if items.length = 0 then ⟨.ok none, r, 0⟩
    else ⟨.error e, (draw r items.length).2, 1⟩
  | items, .ok items2 :: rest', samples, r =>
    if items.length = 0 then ⟨.ok none, r, 0⟩
    else
      let p := draw r items.length
      let samples' := samples ++ [items.getD p.1 ""]
      match sampleLoop items2 rest' samples' p.2 with
      | ⟨res, rng, fetches⟩ => ⟨res, rng, fetches + 1⟩

/-- Outcome of one `_get_random` call or of the whole selection: result,
remaining random stream, and counts of genre draws, search queries and page
fetches performed. -/
structure SelOut where
  res : Except Err (Option String)
  rng : List Nat
  counts : Counts
deriving DecidableEq, Repr

/-- Model of `PlayRandomSongAction._get_random` (spotify.py lines 215-239):
draw a genre (errors propagate), issue one search query `"genre:" ++ g`
(transport errors propagate; a falsy response raises `SpotifyActionError`,
modelled as `emptySearchData`), then run the pagination/sampling loop with an
empty reservoir. -/
def getRandom (cat : Option (List String)) (search : SearchCap)
    (r : List Nat) : SelOut :=
  match getGenre cat r with
  | (.error e, r') => ⟨.error e, r', ⟨0, 0, 0⟩⟩
  | (.ok g, r') =>
    match search ("genre:" ++ g) with
    | .error e => ⟨.error e, r', ⟨1, 1, 0⟩⟩
    | .ok none => ⟨.error .emptySearchData, r', ⟨1, 1, 0⟩⟩
    | .ok (some (first, rest)) =>
      match sampleLoop first rest [] r' with
      | ⟨res, rng, fetches⟩ => ⟨res, rng, ⟨1, 1, fetches⟩⟩

/-- Python truthiness of the `song_id` variable: `None` and the empty string
are falsy (`if song_id: break`, `if not song_id: ... raise`). -/
def truthy : Option String → Bool
  | none => false
  | some s => !(s == "")

/-- Model of the `for _ in range(self._retry_count)` loop of
`PlayRandomSongAction.execute` (spotify.py lines 250-253): each iteration
overwrites `song_id` with a fresh `_get_random()` result and breaks when it
is truthy; errors abort the loop (nothing is caught). The incoming `s` is
the value `song_id` holds when no iterations remain. Counts accumulate
across iterations. -/
def selectLoop (cat : Option (List String)) (search : SearchCap) :
    Nat → Option String → List Nat → SelOut
  | 0, s, r => ⟨.ok s, r, ⟨0, 0, 0⟩⟩
  | n + 1, _, r =>
    match getRandom cat search r with
    | ⟨.error e, r', c⟩ => ⟨.error e, r', c⟩
    | ⟨.ok s', r', c⟩ =>
      if truthy s' then ⟨.ok s', r', c⟩
      else
        match selectLoop cat search n s' r' with
        | ⟨res2, rng2, c2⟩ => ⟨res2, rng2, c + c2⟩

/-- Model of the selection portion of `PlayRandomSongAction.execute`
(spotify.py lines 249-253): one unconditional `_get_random()` call whose
result seeds `song_id`, followed by the retry loop. `n` is
`self._retry_count` (default 5). -/
def execSelect (cat : Option (List String)) (search : SearchCap)
    (n : Nat) (r : List Nat) : SelOut :=
  match getRandom cat search r with
  | ⟨.error e, r', c⟩ => ⟨.error e, r', c⟩
  | ⟨.ok s, r', c⟩ =>
    match selectLoop cat search n s r' with
    | ⟨res2, rng2, c2⟩ => ⟨res2, rng2, c + c2⟩

/-- Outcome of the full `execute` tail: either the chosen track id handed to
playback, or the error that escaped. -/
structure ExecOut where
  res : Except Err String
  rng : List Nat
  counts : Counts
deriving DecidableEq, Repr

/-- Model of the tail of `PlayRandomSongAction.execute` (spotify.py lines
254-257): after the selection, a falsy `song_id` makes the caller-side code
raise `SpotifyActionError("Unable to find a song!")` (`noSongFound`);
otherwise the chosen id goes to playback. -/
def executeAction (cat : Option (List String)) (search : SearchCap)
    (n : Nat) (r : List Nat) : ExecOut :=
  match execSelect cat search n r with
  | ⟨.error e, r', c⟩ => ⟨.error e, r', c⟩
  | ⟨.ok s, r', c⟩ =>
    if truthy s then ⟨.ok (s.getD ""), r', c⟩
    else ⟨.error .noSongFound, r', c⟩

/-- Stage one of the two-stage algorithm exactly as the spec describes it:
collapse each page to one representative chosen uniformly within the page,
in page order. Stated from the spec's words for comparison with the code
model. -/
def twoStageReservoir (pages : List (List String)) (r : List Nat) :
    List String × List Nat :=
  match pages with
  | [] => ([], r)
  | p :: ps =>
    let q := draw r p.length
    let rec' := twoStageReservoir ps q.2
    ((p.getD q.1 "") :: rec'.1, rec'.2)

/-- The documented two-stage sampling algorithm (spec section 4.2, steps 4-6):
build the per-page reservoir, then pick one reservoir entry uniformly. -/
def twoStage (pages : List (List String)) (r : List Nat) :
    Option String × List Nat :=
  let res := twoStageReservoir pages r
  if res.1.length = 0 then (none, res.2)
  else
    let q := draw res.2 res.1.length
    (some (res.1.getD q.1 ""), q.2)

/-! Basic unfolding lemmas. -/

theorem counts_add (a b c d e f : Nat) :
    (Counts.mk a b c) + (Counts.mk d e f) = ⟨a + d, b + e, c + f⟩ := rfl

theorem draw_eq (r : List Nat) (n : Nat) :
    draw r n = (r.headD 0 % n, r.drop 1) := by
  cases r with
  | nil => simp [draw]
  | cons x xs => simp [draw]

theorem getGenre_some (lines : List String) (r : List Nat) (hl : lines ≠ []) :
    getGenre (some lines) r =
      (.ok (stripNewlines (lines.getD (r.headD 0 % lines.length) "")),
        r.drop 1) := by
  have hlen : lines.length ≠ 0 := fun h => hl (List.length_eq_zero.mp h)
  simp [getGenre, hlen, draw_eq]

theorem sampleLoop_nil (rest : List (Except Err (List String)))
    (samples : List String) (r : List Nat) :
    sampleLoop [] rest samples r = ⟨.ok none, r, 0⟩ := by
  cases rest with
  | nil => simp [sampleLoop]
  | cons x tail => cases x <;> simp [sampleLoop]

theorem getRandom_pages (cat : Option (List String)) (search : SearchCap)
    (r : List Nat) (g : String) (r' : List Nat) (first : List String)
    (rest : List (Except Err (List String)))
    (hg : getGenre cat r = (.ok g, r'))
    (hs : search ("genre:" ++ g) = .ok (some (first, rest))) :
    getRandom cat search r =
      ⟨(sampleLoop first rest [] r').res, (sampleLoop first rest [] r').rng,
        ⟨1, 1, (sampleLoop first rest [] r').fetches⟩⟩ := by
  simp only [getRandom, hg, hs]

theorem sampleLoop_one (c : String) (samples : List String) (r : List Nat)
    (hs : samples = []) :
    sampleLoop [c] [] samples r = ⟨.ok (some c), r.drop 2, 0⟩ := by
  subst hs
  simp [sampleLoop, draw_eq, Nat.mod_one, List.drop_drop]

theorem getRandom_one (lines : List String) (c : String) (search : SearchCap)
    (r : List Nat) (hl : lines ≠ [])
    (hs : ∀ q, search q = .ok (some ([c], []))) :
    getRandom (some lines) search r = ⟨.ok (some c), r.drop 3, ⟨1, 1, 0⟩⟩ := by
  rw [getRandom_pages (some lines) search r _ _ _ _ (getGenre_some lines r hl)
    (hs _), sampleLoop_one c [] _ rfl]
  simp [List.drop_drop]

theorem selectLoop_one (lines : List String) (c : String) (search : SearchCap)
    (n : Nat) (s : Option String) (r : List Nat) (hl : lines ≠ [])
    (hs : ∀ q, search q = .ok (some ([c], []))) (hc : c ≠ "") (hn : 1 ≤ n) :
    selectLoop (some lines) search n s r =
      ⟨.ok (some c), r.drop 3, ⟨1, 1, 0⟩⟩ := by
  cases n with
  | zero => exact absurd hn (by simp)
  | succ m =>
    have htr : truthy (some c) = true := by
      simp [truthy, hc]
    simp only [selectLoop, getRandom_one lines c search r hl hs, htr,
      if_true]

theorem getRandom_emptyFirstPage (lines : List String) (search : SearchCap)
    (r : List Nat) (hl : lines ≠ [])
    (hs : ∀ q, ∃ rest, search q = .ok (some ([], rest))) :
    getRandom (some lines) search r = ⟨.ok none, r.drop 1, ⟨1, 1, 0⟩⟩ := by
  obtain ⟨rest, hq⟩ := hs ("genre:" ++
    stripNewlines (lines.getD (r.headD 0 % lines.length) ""))
  rw [getRandom_pages (some lines) search r _ _ _ _ (getGenre_some lines r hl)
    hq]
  simp [sampleLoop_nil]

theorem selectLoop_emptyAll (lines : List String) (search : SearchCap)
    (hl : lines ≠ [])
    (hs : ∀ q, ∃ rest, search q = .ok (some ([], rest))) :
    ∀ (n : Nat) (r : List Nat),
      selectLoop (some lines) search n none r =
        ⟨.ok none, r.drop n, ⟨n, n, 0⟩⟩ := by
  intro n
  induction n with
  | zero => intro r; simp [selectLoop]
  | succ m ih =>
    intro r
    simp only [selectLoop, getRandom_emptyFirstPage lines search r hl hs,
      truthy, Bool.false_eq_true, if_false, ih (r.drop 1), counts_add,
      List.drop_drop]
    rw [Nat.add_comm 1 m]

theorem execSelect_emptyAll (lines : List String) (search : SearchCap)
    (n : Nat) (r : List Nat) (hl : lines ≠ [])
    (hs : ∀ q, ∃ rest, search q = .ok (some ([], rest))) :
    execSelect (some lines) search n r =
      ⟨.ok none, r.drop (n + 1), ⟨n + 1, n + 1, 0⟩⟩ := by
  simp only [execSelect, getRandom_emptyFirstPage lines search r hl hs,
    selectLoop_emptyAll lines search hl hs n (r.drop 1), counts_add,
    List.drop_drop]
  rw [Nat.add_comm 1 n]

theorem drop_one_drop (r : List Nat) (k : Nat) :
    (r.drop 1).drop k = r.drop (k + 1) := by
  rw [List.drop_drop]
  congr 1
  omega

theorem sampleLoop_prefix_error (e : Err) :
    ∀ (ros : List (Except Err (List String))) (items samples : List String)
      (rest' : List (Except Err (List String))) (r : List Nat),
      items ≠ [] → (∀ x ∈ ros, ∃ l, x = Except.ok l ∧ l ≠ []) →
      sampleLoop items (ros ++ .error e :: rest') samples r =
        ⟨.error e, r.drop (ros.length + 1), ros.length + 1⟩ := by
  intro ros
  induction ros with
  | nil =>
    intro items samples rest' r hi _
    have hlen : items.length ≠ 0 := fun h => hi (List.length_eq_zero.mp h)
    simp [sampleLoop, hlen, draw_eq]
  | cons x ros2 ih =>
    intro items samples rest' r hi hros
    obtain ⟨l, hx, hl⟩ := hros x (List.mem_cons_self x ros2)
    subst hx
    have hlen : items.length ≠ 0 := fun h => hi (List.length_eq_zero.mp h)
    have hros2 : ∀ y ∈ ros2, ∃ l2, y = Except.ok l2 ∧ l2 ≠ [] :=
      fun y hy => hros y (List.mem_cons_of_mem _ hy)
    simp only [List.cons_append, sampleLoop, hlen, if_false, draw_eq,
      List.append_eq, ih l _ rest' (r.drop 1) hl hros2, drop_one_drop,
      List.length_cons]

theorem sampleLoop_prefix_emptyPage :
    ∀ (ros : List (Except Err (List String))) (items samples : List String)
      (rest' : List (Except Err (List String))) (r : List Nat),
      items ≠ [] → (∀ x ∈ ros, ∃ l, x = Except.ok l ∧ l ≠ []) →
      sampleLoop items (ros ++ .ok [] :: rest') samples r =
        ⟨.ok none, r.drop (ros.length + 1), ros.length + 1⟩ := by
  intro ros
  induction ros with
  | nil =>
    intro items samples rest' r hi _
    have hlen : items.length ≠ 0 := fun h => hi (List.length_eq_zero.mp h)
    simp [sampleLoop, hlen, draw_eq, sampleLoop_nil]
  | cons x ros2 ih =>
    intro items samples rest' r hi hros
    obtain ⟨l, hx, hl⟩ := hros x (List.mem_cons_self x ros2)
    subst hx
    have hlen : items.length ≠ 0 := fun h => hi (List.length_eq_zero.mp h)
    have hros2 : ∀ y ∈ ros2, ∃ l2, y = Except.ok l2 ∧ l2 ≠ [] :=
      fun y hy => hros y (List.mem_cons_of_mem _ hy)
    simp only [List.cons_append, sampleLoop, hlen, if_false, draw_eq,
      List.append_eq, ih l _ rest' (r.drop 1) hl hros2, drop_one_drop,
      List.length_cons]

theorem twoStageReservoir_length (pages : List (List String)) (r : List Nat) :
    (twoStageReservoir pages r).1.length = pages.length := by
  induction pages generalizing r with
  | nil => simp [twoStageReservoir]
  | cons p ps ih => simp [twoStageReservoir, ih]

theorem sampleLoop_eq_twoStage :
    ∀ (ps : List (List String)) (p0 samples : List String) (r : List Nat),
      p0 ≠ [] → (∀ p ∈ ps, p ≠ []) →
      sampleLoop p0 (ps.map Except.ok) samples r =
        ⟨.ok (some ((samples ++ (twoStageReservoir (p0 :: ps) r).1).getD
            (draw (twoStageReservoir (p0 :: ps) r).2
              (samples ++ (twoStageReservoir (p0 :: ps) r).1).length).1 "")),
          (draw (twoStageReservoir (p0 :: ps) r).2
            (samples ++ (twoStageReservoir (p0 :: ps) r).1).length).2,
          ps.length⟩ := by
  intro ps
  induction ps with
  | nil =>
    intro p0 samples r h0 _
    have hlen : p0.length ≠ 0 := fun h => h0 (List.length_eq_zero.mp h)
    simp [sampleLoop, twoStageReservoir, hlen]
  | cons q qs ih =>
    intro p0 samples r h0 hps
    have hlen : p0.length ≠ 0 := fun h => h0 (List.length_eq_zero.mp h)
    have hq : q ≠ [] := hps q (List.mem_cons_self q qs)
    have hqs : ∀ p ∈ qs, p ≠ [] := fun p hp => hps p (List.mem_cons_of_mem _ hp)
    simp only [List.map_cons, sampleLoop, hlen, if_false,
      ih q _ (draw r p0.length).2 hq hqs, twoStageReservoir,
      List.length_cons, List.append_assoc, List.singleton_append]

theorem getRandom_res_error (cat : Option (List String)) (search : SearchCap)
    (r rng : List Nat) (e : Err) (c : Counts)
    (h : getRandom cat search r = ⟨.error e, rng, c⟩) (n : Nat) :
    execSelect cat search n r = ⟨.error e, rng, c⟩ := by
  simp only [execSelect]
  rw [h]

theorem selectLoop_resNone (cat : Option (List String)) (search : SearchCap)
    (h : ∀ r', (getRandom cat search r').res = .ok none) :
    ∀ (n : Nat) (r : List Nat),
      (selectLoop cat search n none r).res = .ok none := by
  intro n
  induction n with
  | zero => intro r; simp [selectLoop]
  | succ m ih =>
    intro r
    rcases hE : getRandom cat search r with ⟨res, rng, c⟩
    have hres := h r
    rw [hE] at hres
    simp only at hres
    subst hres
    rcases hE2 : selectLoop cat search m none rng with ⟨res2, rng2, c2⟩
    have h2 := ih rng
    rw [hE2] at h2
    simp only at h2
    subst h2
    simp [selectLoop, hE, truthy, hE2]

/-- Fake capabilities used by concrete runs in counterexamples and
witnesses. -/
def oneTrackCap : SearchCap := fun _ => .ok (some (["t1"], []))

def emptyPageCap : SearchCap := fun _ => .ok (some ([], []))

def threePageCap : SearchCap := fun q =>
  if q = "genre:rock" then
    .ok (some (["a", "b"], [.ok ["c"], .ok ["d", "e", "f"]]))
  else .error (.transport 0)

def failingCap : SearchCap := fun _ => .error (.transport 7)

/-- Default value of `retry_count` in `PlayRandomSongAction.__init__`
(spotify.py line 205). -/
def defaultRetryCount : Nat := 5

/-! Claim theorems. -/

/-- C1, counterexample to the claim as stated: with a fake search capability
that always returns exactly one page with one candidate and `maxRetries = 1`,
the selection makes 2 search query calls, not 1 — `execute` runs one
unconditional `_get_random()` before the retry loop and discards its
result. -/
theorem c1_single_candidate_one_query_false :
    (execSelect (some ["rock\n"]) oneTrackCap 1 [0, 0, 0, 0, 0, 0]).counts.queries = 2 ∧
    ¬ (execSelect (some ["rock\n"]) oneTrackCap 1 [0, 0, 0, 0, 0, 0]).counts.queries = 1 := by
  constructor <;> decide

/-- C1, amended: for a fake search capability always returning exactly one
page with one (truthy) candidate, the selection makes exactly 2 search query
calls — the pre-loop `_get_random()` call at line 249, whose result is
immediately overwritten, plus attempt 1 of the retry loop — and returns that
candidate, for any `maxRetries ≥ 1`; no page fetches happen. -/
theorem c1_single_candidate_two_queries (lines : List String) (c : String)
    (search : SearchCap) (n : Nat) (r : List Nat) (hl : lines ≠ [])
    (hs : ∀ q, search q = .ok (some ([c], []))) (hc : c ≠ "") (hn : 1 ≤ n) :
    execSelect (some lines) search n r =
      ⟨.ok (some c), r.drop 6, ⟨2, 2, 0⟩⟩ := by
  simp only [execSelect, getRandom_one lines c search r hl hs,
    selectLoop_one lines c search n (some c) (r.drop 3) hl hs hc hn,
    counts_add, List.drop_drop]

/-- C1 witness: the amended theorem at a concrete catalog, capability,
retry budget and random stream. -/
theorem c1_single_candidate_two_queries_witness :
    execSelect (some ["rock\n"]) oneTrackCap 1 [0, 0, 0, 0, 0, 0] =
      ⟨.ok (some "t1"), [], ⟨2, 2, 0⟩⟩ :=
  c1_single_candidate_two_queries ["rock\n"] "t1" oneTrackCap 1
    [0, 0, 0, 0, 0, 0] (by decide) (fun _ => rfl) (by decide) (by decide)

/-- C2, counterexample to the claim as stated: with every attempt's first
page empty and the default `maxRetries = 5`, the selection makes 6 genre
draws and search calls, not 5 — the pre-loop `_get_random()` call adds one. -/
theorem c2_exhaustion_retry_count_false :
    (execSelect (some ["rock\n"]) emptyPageCap defaultRetryCount
      [0, 0, 0, 0, 0, 0]).counts.queries = 6 ∧
    (execSelect (some ["rock\n"]) emptyPageCap defaultRetryCount
      [0, 0, 0, 0, 0, 0]).counts.genreDraws = 6 ∧
    ¬ (execSelect (some ["rock\n"]) emptyPageCap defaultRetryCount
      [0, 0, 0, 0, 0, 0]).counts.queries = 5 := by
  refine ⟨?_, ?_, ?_⟩ <;> decide

/-- C2, amended: if every attempt's first search page has 0 candidates, the
selection performs exactly `maxRetries + 1` genre draws and search calls (the
pre-loop call plus `maxRetries` loop attempts; 6 with the default
`maxRetries = 5`) and then yields the defined empty outcome, with zero page
fetches. -/
theorem c2_exhaustion_retry_plus_one (lines : List String)
    (search : SearchCap) (n : Nat) (r : List Nat) (hl : lines ≠ [])
    (hs : ∀ q, ∃ rest, search q = .ok (some ([], rest))) :
    execSelect (some lines) search n r =
      ⟨.ok none, r.drop (n + 1), ⟨n + 1, n + 1, 0⟩⟩ :=
  execSelect_emptyAll lines search n r hl hs

/-- C2 witness: the amended theorem at the default retry budget. -/
theorem c2_exhaustion_retry_plus_one_witness :
    execSelect (some ["rock\n"]) emptyPageCap defaultRetryCount
      [0, 0, 0, 0, 0, 0] = ⟨.ok none, [], ⟨6, 6, 0⟩⟩ :=
  c2_exhaustion_retry_plus_one ["rock\n"] emptyPageCap defaultRetryCount
    [0, 0, 0, 0, 0, 0] (by decide) (fun _ => ⟨[], rfl⟩)

/-- C3: when every attempt yields no candidate, the selection portion of
`execute` (the `_get_random` calls and the retry loop) returns the defined
empty outcome `.ok none` — not an exception — and it is the caller-side tail
of `execute` (lines 254-257) that decides this is a hard failure and raises
`SpotifyActionError("Unable to find a song!")`. -/
theorem c3_exhausted_retries_empty_outcome (cat : Option (List String))
    (search : SearchCap) (n : Nat) (r : List Nat)
    (h : ∀ r', (getRandom cat search r').res = .ok none) :
    (execSelect cat search n r).res = .ok none ∧
    (executeAction cat search n r).res = .error .noSongFound := by
  have h1 : (execSelect cat search n r).res = .ok none := by
    rcases hE : getRandom cat search r with ⟨res, rng, c⟩
    have hres := h r
    rw [hE] at hres
    simp only at hres
    subst hres
    rcases hE2 : selectLoop cat search n none rng with ⟨res2, rng2, c2⟩
    have h2 := selectLoop_resNone cat search h n rng
    rw [hE2] at h2
    simp only at h2
    subst h2
    simp [execSelect, hE, hE2]
  refine ⟨h1, ?_⟩
  rcases hE : execSelect cat search n r with ⟨res, rng, c⟩
  rw [hE] at h1
  simp only at h1
  subst h1
  simp [executeAction, hE, truthy]

/-- C3 witness: concrete exhaustion run; the selection returns `.ok none`
and the caller-side tail turns it into the `noSongFound` error. -/
theorem c3_exhausted_retries_empty_outcome_witness :
    (execSelect (some ["rock\n"]) emptyPageCap 5 [0, 0, 0, 0, 0, 0]).res = .ok none ∧
    (executeAction (some ["rock\n"]) emptyPageCap 5 [0, 0, 0, 0, 0, 0]).res =
      .error .noSongFound :=
  c3_exhausted_retries_empty_outcome (some ["rock\n"]) emptyPageCap 5
    [0, 0, 0, 0, 0, 0]
    (fun r' => by
      rw [getRandom_emptyFirstPage ["rock\n"] emptyPageCap r' (by decide)
        (fun _ => ⟨[], rfl⟩)])

/-- C7: if the first page of an attempt's search has 0 candidates, the
attempt returns the defined empty outcome `.ok none` (not an error), makes
zero `fetchNext` calls, and is abandoned immediately: beyond the single
genre draw and query, no further randomness is consumed and no further
calls are made. -/
theorem c7_empty_first_page_short_circuit (cat : Option (List String))
    (search : SearchCap) (r r' : List Nat) (g : String)
    (rest : List (Except Err (List String)))
    (hg : getGenre cat r = (.ok g, r'))
    (hs : search ("genre:" ++ g) = .ok (some ([], rest))) :
    getRandom cat search r = ⟨.ok none, r', ⟨1, 1, 0⟩⟩ := by
  rw [getRandom_pages cat search r g r' [] rest hg hs]
  simp [sampleLoop_nil]

/-- C7 witness: a concrete empty first page; no fetches happen even though
the response carries continuation entries. -/
theorem c7_empty_first_page_short_circuit_witness :
    getRandom (some ["rock\n"])
      (fun _ => .ok (some ([], [.ok ["x"], .ok ["y"]]))) [4, 9] =
      ⟨.ok none, [9], ⟨1, 1, 0⟩⟩ :=
  c7_empty_first_page_short_circuit (some ["rock\n"])
    (fun _ => .ok (some ([], [.ok ["x"], .ok ["y"]]))) [4, 9] [9] "rock"
    [.ok ["x"], .ok ["y"]] (by decide) rfl

/-- C4: for a fixed sequence of non-empty pages and a fixed random stream,
one selection attempt returns exactly the result of the documented two-stage
algorithm (one uniform index per page into a per-page reservoir, then one
uniform pick among the reservoir entries), applied to the page sequence with
the stream left after the genre draw; the attempt is deterministic in these
inputs and fetches exactly one page per continuation. -/
theorem c4_attempt_matches_two_stage (cat : Option (List String))
    (search : SearchCap) (r r' : List Nat) (g : String) (p0 : List String)
    (ps : List (List String))
    (hg : getGenre cat r = (.ok g, r'))
    (hs : search ("genre:" ++ g) = .ok (some (p0, ps.map Except.ok)))
    (h0 : p0 ≠ []) (hps : ∀ p ∈ ps, p ≠ []) :
    getRandom cat search r =
      ⟨.ok (twoStage (p0 :: ps) r').1, (twoStage (p0 :: ps) r').2,
        ⟨1, 1, ps.length⟩⟩ := by
  rw [getRandom_pages cat search r g r' p0 (ps.map Except.ok) hg hs,
    sampleLoop_eq_twoStage ps p0 [] r' h0 hps]
  have hlen : (twoStageReservoir (p0 :: ps) r').1.length ≠ 0 := by
    rw [twoStageReservoir_length]
    simp
  simp [twoStage, hlen]

/-- C4 witness: the spec's 3-page scenario with candidate counts [2, 1, 3];
the attempt's pick equals the hand-run two-stage algorithm's pick, here the
page-2 representative "c". -/
theorem c4_attempt_matches_two_stage_witness :
    getRandom (some ["rock\n"]) threePageCap [1, 1, 0, 2, 4] =
      ⟨.ok (twoStage [["a", "b"], ["c"], ["d", "e", "f"]] [1, 0, 2, 4]).1,
        (twoStage [["a", "b"], ["c"], ["d", "e", "f"]] [1, 0, 2, 4]).2,
        ⟨1, 1, 2⟩⟩ ∧
    (twoStage [["a", "b"], ["c"], ["d", "e", "f"]] [1, 0, 2, 4]).1 = some "c" :=
  ⟨c4_attempt_matches_two_stage (some ["rock\n"]) threePageCap [1, 1, 0, 2, 4]
      [1, 0, 2, 4] "rock" ["a", "b"] [["c"], ["d", "e", "f"]] (by decide)
      (by decide) (by decide) (by decide),
    by decide⟩

/-- C8: errors raised by the search capability or by a page fetch are not
caught by the selector: a failing first query makes `_get_random` return
exactly that error; a failing continuation fetch after any run of non-empty
pages propagates that error out of the traversal; and an erroring attempt
aborts the whole `execute` retry loop, whose outcome (and call counts) are
exactly those of the single failing attempt — no internal retry or backoff. -/
theorem c8_transport_errors_propagate :
    (∀ (cat : Option (List String)) (search : SearchCap) (r r' : List Nat)
        (g : String) (e : Err),
        getGenre cat r = (.ok g, r') →
        search ("genre:" ++ g) = .error e →
        getRandom cat search r = ⟨.error e, r', ⟨1, 1, 0⟩⟩)
    ∧ (∀ (cat : Option (List String)) (search : SearchCap) (r r' : List Nat)
        (g : String) (e : Err) (p0 : List String)
        (ros rest' : List (Except Err (List String))),
        getGenre cat r = (.ok g, r') →
        search ("genre:" ++ g) = .ok (some (p0, ros ++ .error e :: rest')) →
        p0 ≠ [] → (∀ x ∈ ros, ∃ l, x = Except.ok l ∧ l ≠ []) →
        getRandom cat search r =
          ⟨.error e, r'.drop (ros.length + 1), ⟨1, 1, ros.length + 1⟩⟩)
    ∧ (∀ (cat : Option (List String)) (search : SearchCap) (n : Nat)
        (r rng : List Nat) (e : Err) (c : Counts),
        getRandom cat search r = ⟨.error e, rng, c⟩ →
        execSelect cat search n r = ⟨.error e, rng, c⟩ ∧
        executeAction cat search n r = ⟨.error e, rng, c⟩) := by
  refine ⟨?_, ?_, ?_⟩
  · intro cat search r r' g e hg hs
    simp only [getRandom, hg, hs]
  · intro cat search r r' g e p0 ros rest' hg hs h0 hros
    rw [getRandom_pages cat search r g r' p0 _ hg hs,
      sampleLoop_prefix_error e ros p0 [] rest' r' h0 hros]
  · intro cat search n r rng e c h
    have h1 := getRandom_res_error cat search r rng e c h n
    exact ⟨h1, by simp [executeAction, h1]⟩

/-- C8 witness: a transport failure (tagged 7) on the first query propagates
unmodified through `_get_random`, the retry loop and `execute`, with exactly
one genre draw and one query made despite a retry budget of 5. -/
theorem c8_transport_errors_propagate_witness :
    getRandom (some ["rock\n"]) failingCap [0] =
      ⟨.error (.transport 7), [], ⟨1, 1, 0⟩⟩ ∧
    execSelect (some ["rock\n"]) failingCap 5 [0] =
      ⟨.error (.transport 7), [], ⟨1, 1, 0⟩⟩ ∧
    executeAction (some ["rock\n"]) failingCap 5 [0] =
      ⟨.error (.transport 7), [], ⟨1, 1, 0⟩⟩ := by
  have h1 := c8_transport_errors_propagate.1 (some ["rock\n"]) failingCap
    [0] [] "rock" (.transport 7) (by decide) rfl
  have h3 := c8_transport_errors_propagate.2.2 (some ["rock\n"]) failingCap
    5 [0] [] (.transport 7) ⟨1, 1, 0⟩ h1
  exact ⟨h1, h3.1, h3.2⟩

/-- C9: every attempt starts with a fresh, empty reservoir and the only
state crossing attempt boundaries is the random stream: the retry loop's
behaviour is independent of the `song_id` value carried from a previous
failed attempt, and each `_get_random` call runs the sampling traversal with
the initial reservoir `[]`, its outcome a function of the attempt's own
pages and the stream position alone. -/
theorem c9_fresh_reservoir_per_attempt :
    (∀ (cat : Option (List String)) (search : SearchCap) (n : Nat)
        (s s' : Option String) (r : List Nat),
        selectLoop cat search (n + 1) s r = selectLoop cat search (n + 1) s' r)
    ∧ (∀ (cat : Option (List String)) (search : SearchCap) (r r' : List Nat)
        (g : String) (first : List String)
        (rest : List (Except Err (List String))),
        getGenre cat r = (.ok g, r') →
        search ("genre:" ++ g) = .ok (some (first, rest)) →
        getRandom cat search r =
          ⟨(sampleLoop first rest [] r').res, (sampleLoop first rest [] r').rng,
            ⟨1, 1, (sampleLoop first rest [] r').fetches⟩⟩) := by
  refine ⟨?_, ?_⟩
  · intro cat search n s s' r
    rfl
  · intro cat search r r' g first rest hg hs
    exact getRandom_pages cat search r g r' first rest hg hs

/-- C9 witness: a stale candidate carried into the loop does not change its
result, and a concrete attempt is exactly the traversal started on the empty
reservoir. -/
theorem c9_fresh_reservoir_per_attempt_witness :
    selectLoop (some ["rock\n"]) oneTrackCap 1 (some "stale") [0, 0, 0] =
      selectLoop (some ["rock\n"]) oneTrackCap 1 none [0, 0, 0] ∧
    getRandom (some ["rock\n"]) oneTrackCap [0, 0, 0] =
      ⟨(sampleLoop ["t1"] [] [] [0, 0]).res,
        (sampleLoop ["t1"] [] [] [0, 0]).rng,
        ⟨1, 1, (sampleLoop ["t1"] [] [] [0, 0]).fetches⟩⟩ :=
  ⟨c9_fresh_reservoir_per_attempt.1 (some ["rock\n"]) oneTrackCap 0
      (some "stale") none [0, 0, 0],
    c9_fresh_reservoir_per_attempt.2 (some ["rock\n"]) oneTrackCap [0, 0, 0]
      [0, 0] "rock" ["t1"] [] (by decide) rfl⟩

/-- C10: if any page after the first in an attempt's traversal has 0
candidates, the whole attempt returns the defined empty outcome: whatever
reservoir was accumulated from the earlier pages is discarded and no
candidate is returned, both at the traversal level (for an arbitrary
already-accumulated reservoir) and for the whole `_get_random` call. -/
theorem c10_later_empty_page_yields_none :
    (∀ (items samples : List String)
        (ros rest' : List (Except Err (List String))) (r : List Nat),
        items ≠ [] → (∀ x ∈ ros, ∃ l, x = Except.ok l ∧ l ≠ []) →
        sampleLoop items (ros ++ .ok [] :: rest') samples r =
          ⟨.ok none, r.drop (ros.length + 1), ros.length + 1⟩)
    ∧ (∀ (cat : Option (List String)) (search : SearchCap) (r r' : List Nat)
        (g : String) (p0 : List String)
        (ros rest' : List (Except Err (List String))),
        getGenre cat r = (.ok g, r') →
        search ("genre:" ++ g) = .ok (some (p0, ros ++ .ok [] :: rest')) →
        p0 ≠ [] → (∀ x ∈ ros, ∃ l, x = Except.ok l ∧ l ≠ []) →
        getRandom cat search r =
          ⟨.ok none, r'.drop (ros.length + 1), ⟨1, 1, ros.length + 1⟩⟩) := by
  refine ⟨?_, ?_⟩
  · intro items samples ros rest' r hi hros
    exact sampleLoop_prefix_emptyPage ros items samples rest' r hi hros
  · intro cat search r r' g p0 ros rest' hg hs h0 hros
    rw [getRandom_pages cat search r g r' p0 _ hg hs,
      sampleLoop_prefix_emptyPage ros p0 [] rest' r' h0 hros]

/-- C10 witness: a non-empty reservoir (`["z"]`) and a sampled first page are
discarded when the third page comes back empty; the result is the empty
outcome after 2 fetches. -/
theorem c10_later_empty_page_yields_none_witness :
    sampleLoop ["a"] [.ok ["b"], .ok []] ["z"] [0, 1, 2, 3] =
      ⟨.ok none, [2, 3], 2⟩ :=
  c10_later_empty_page_yields_none.1 ["a"] ["z"] [.ok ["b"]] [] [0, 1, 2, 3]
    (by decide)
    (fun x hx => by
      rw [List.mem_singleton.mp hx]
      exact ⟨["b"], rfl, by decide⟩)

/-- C5, counterexample to the claim as stated: `_get_genre` does not strip
surrounding whitespace (it can return " jazz ", whose stripped form differs)
and does not remove blank lines (a blank line can be chosen, yielding "",
even though the spec-processed catalog has no such label). -/
theorem c5_catalog_strip_false :
    getGenre (some ["rock\n", " jazz \n"]) [1] = (.ok " jazz ", []) ∧
    stripWs " jazz " = "jazz" ∧
    " jazz " ≠ "jazz" ∧
    getGenre (some ["rock\n", "\n"]) [1] = (.ok "", []) ∧
    specUsableLines ["rock\n", "\n"] = ["rock"] := by
  refine ⟨?_, ?_, ?_, ?_, ?_⟩ <;> decide

/-- C5, amended: `_get_genre` returns the raw catalog line picked by one
uniform draw over all lines — blank lines included — with only leading and
trailing newline characters stripped (not general whitespace); the returned
label is always a newline-stripped catalog line; each of the equally likely
draw residues selects exactly one line position (uniformity); and a second
call against the unchanged catalog is the same independent draw on the
advanced stream — the catalog is neither mutated nor exhausted. -/
theorem c5_uniform_raw_lines (lines : List String) (r : List Nat)
    (hl : lines ≠ []) :
    getGenre (some lines) r =
      (.ok (stripNewlines (lines.getD (r.headD 0 % lines.length) "")),
        r.drop 1)
    ∧ stripNewlines (lines.getD (r.headD 0 % lines.length) "") ∈
        lines.map stripNewlines
    ∧ (∀ j : Fin lines.length, ∃! i : Fin lines.length,
        (i : Nat) % lines.length = (j : Nat))
    ∧ getGenre (some lines) ((getGenre (some lines) r).2) =
        (.ok (stripNewlines (lines.getD
            (((getGenre (some lines) r).2).headD 0 % lines.length) "")),
          ((getGenre (some lines) r).2).drop 1) := by
  have hpos : 0 < lines.length := List.length_pos.mpr hl
  refine ⟨getGenre_some lines r hl, ?_, ?_, getGenre_some lines _ hl⟩
  · have hidx : r.headD 0 % lines.length < lines.length := Nat.mod_lt _ hpos
    rw [List.getD_eq_getElem lines "" hidx]
    exact List.mem_map_of_mem _ (List.getElem_mem hidx)
  · intro j
    refine ⟨j, ?_, ?_⟩
    · simp [Nat.mod_eq_of_lt j.isLt]
    · intro i hi
      apply Fin.ext
      simp only [Nat.mod_eq_of_lt i.isLt] at hi
      exact hi

/-- C5 witness: two successive calls on the same two-line catalog are
independent uniform draws; the first picks the raw line " jazz \n" (draw
3 % 2 = 1) and returns it with only the newline stripped. -/
theorem c5_uniform_raw_lines_witness :
    getGenre (some ["rock\n", " jazz \n"]) [3, 7] = (.ok " jazz ", [7]) :=
  (c5_uniform_raw_lines ["rock\n", " jazz \n"] [3, 7] (by decide)).1

/-- C6, counterexample to the claim as stated: a catalog whose only line is
blank has zero usable lines in the spec's sense, yet `_get_genre` does not
fail with an EmptyCatalog error — it succeeds and returns the empty-string
label. -/
theorem c6_empty_catalog_error_false :
    specUsableLines ["\n"] = [] ∧
    getGenre (some ["\n"]) [0] = (.ok "", []) := by
  constructor <;> decide

/-- C6, amended: `_get_genre` fails with `catalogUnavailable` when the
catalog resource cannot be opened and with `emptyCatalog` only when the
catalog contains zero lines at all; both errors surface to the caller
immediately — the whole selection aborts with that error, making no genre
draws, queries or retries — while a catalog with at least one line (even an
all-blank one) always yields a label. -/
theorem c6_catalog_errors (search : SearchCap) (n : Nat) (r : List Nat) :
    getGenre none r = (.error .catalogUnavailable, r)
    ∧ getGenre (some []) r = (.error .emptyCatalog, r)
    ∧ execSelect none search n r = ⟨.error .catalogUnavailable, r, ⟨0, 0, 0⟩⟩
    ∧ execSelect (some []) search n r = ⟨.error .emptyCatalog, r, ⟨0, 0, 0⟩⟩
    ∧ (∀ lines : List String, lines ≠ [] →
        (getGenre (some lines) r).1 =
          .ok (stripNewlines (lines.getD (r.headD 0 % lines.length) ""))) := by
  have hu : getRandom none search r =
      ⟨.error .catalogUnavailable, r, ⟨0, 0, 0⟩⟩ := by
    simp [getRandom, getGenre]
  have he : getRandom (some []) search r =
      ⟨.error .emptyCatalog, r, ⟨0, 0, 0⟩⟩ := by
    simp [getRandom, getGenre]
  refine ⟨rfl, rfl, getRandom_res_error none search r r _ _ hu n,
    getRandom_res_error (some []) search r r _ _ he n, ?_⟩
  intro lines hl
  rw [getGenre_some lines r hl]

/-- C6 witness: with an unopenable catalog the whole selection aborts with
`catalogUnavailable` and zero calls; with a zero-line catalog it aborts with
`emptyCatalog`; with a blank-only catalog the draw succeeds with the empty
label. -/
theorem c6_catalog_errors_witness :
    execSelect none emptyPageCap 5 [4] =
      ⟨.error .catalogUnavailable, [4], ⟨0, 0, 0⟩⟩ ∧
    execSelect (some []) emptyPageCap 5 [4] =
      ⟨.error .emptyCatalog, [4], ⟨0, 0, 0⟩⟩ ∧
    (getGenre (some ["\n"]) [4]).1 = .ok "" := by
  have h := c6_catalog_errors emptyPageCap 5 [4]
  exact ⟨h.2.2.1, h.2.2.2.1, h.2.2.2.2 ["\n"] (by decide)⟩

end HeySiwi
